import Mathlib

/-!
Verification development for the walletconnect provider source
(src/src/index.ts). The module is shallowly embedded: the module level
mutable bindings become an explicit global state record, the promise
machinery becomes future identifiers plus an explicit settlement status,
and each event handler becomes a step function on that state. Line
numbers in the doc comments refer to src/src/index.ts.
-/

namespace WCP

/-- Errors thrown or handed to callbacks; the model keeps only the message. -/
abbrev Err := String

/-- JavaScript truthiness of an optional string: undefined and the empty
string are falsy. -/
def truthyStr : Option String → Bool
  | none => false
  | some s => s != ""

/-- Lines 10-17: the methods routed to the walletconnect session. -/
def walletconnectMethods : List String :=
  ["eth_signTransaction", "eth_sendTransaction", "eth_sign",
   "eth_signTypedDataLegacy", "eth_signTypedData", "personal_sign"]

/-- Line 20: supported methods are eth_accounts plus the signing methods. -/
def supportedMethods : List String :=
  "eth_accounts" :: walletconnectMethods

/-- One entry of a request params array: a transaction object carrying a
chainId field, a plain hex string (as appended by the dispatcher), or some
other value. -/
inductive TxParam where
  | tx (chainId : Nat)
  | hexStr (s : String)
  | other (s : String)
  deriving DecidableEq, Repr

/-- A JSON-RPC request payload as the dispatcher sees it. -/
structure Payload where
  id : Nat
  jsonrpc : String
  method : String
  params : List TxParam
  deriving DecidableEq, Repr

/-- A value stored in the result field of a response: an account list, an
opaque value from the custom request channel, the JavaScript null (the
signing error path passes null explicitly), or undefined (the accounts
catch path leaves the result argument unset). -/
inductive RpcResult where
  | accounts (l : List String)
  | value (s : String)
  | nullv
  | undef
  deriving DecidableEq, Repr

/-- The response object built by getCallback. -/
structure JsonRpcResponse where
  id : Nat
  jsonrpc : String
  result : RpcResult
  deriving DecidableEq, Repr

/-- Lines 28-38: getCallback builds a fresh response object, copies the id
and jsonrpc fields from the payload into it, stores the result, and hands
(err, obj) to the callback. The model returns the pair that the callback
receives. -/
def getCallback (payload : Payload) (err : Option Err) (result : RpcResult) :
    Option Err × JsonRpcResponse :=
  (err, { id := payload.id, jsonrpc := payload.jsonrpc, result := result })

/-- External helper from the walletconnect utils library: hex encoding of a
number with a 0x prefix. -/
def convertNumberToHex (n : Nat) : String :=
  "0x" ++ String.mk (Nat.toDigits 16 n)

/-- The chainId field of params[0], as read on line 281. The claims only
exercise the case where the first param is a transaction object. -/
def chainIdOfFirst : List TxParam → Nat
  | TxParam.tx c :: _ => c
  | _ => 0

/-- Lines 278-282: for eth_sendTransaction the dispatcher executes
payload.params.push(convertNumberToHex(payload.params[0].chainId)), which
mutates the params array of the payload object held by the caller, in
place. No copy of the payload is ever taken, so the forwarded payload and
the payload object the caller retains are one and the same object. This
definition gives the state of that object once the synchronous part of
sendAsync has run. -/
def sendAsyncPayloadAfter (payload : Payload) : Payload :=
  if payload.method = "eth_sendTransaction" then
    { payload with
        params := payload.params ++
          [TxParam.hexStr (convertNumberToHex (chainIdOfFirst payload.params))] }
  else payload

/-- The session object of the external walletconnect connector: the model
keeps the account list. -/
structure WCSession where
  accounts : List String
  deriving DecidableEq, Repr

/-- The external walletconnect connector object, as observed by the core:
the bridge it was built with, its connected flag, and its session. -/
structure Connector where
  bridge : String
  connected : Bool
  session : Option WCSession
  deriving DecidableEq, Repr

/-- Line 139: a freshly constructed connector for a bridge URL. -/
def newConnector (bridge : String) : Connector :=
  { bridge := bridge, connected := false, session := none }

/-- Lines 45-51 and the guards of the form cb && cb(...): the model keeps,
for each lifecycle hook, whether the caller supplied it. -/
structure Callbacks where
  hasOnConnect : Bool
  hasOnCreate : Bool
  hasOnAbort : Bool
  hasOnUpdate : Bool
  hasOnDisconnect : Bool
  deriving DecidableEq, Repr

/-- Lines 40-43. -/
structure RequestHeader where
  name : String
  value : String
  deriving DecidableEq, Repr

/-- Lines 53-81: the per instance configuration stored by the constructor. -/
structure Config where
  host : String
  timeout : Nat
  user : Option String
  password : Option String
  headers : Option (List RequestHeader)
  bridgeURL : String
  showQRCode : Bool
  callbacks : Callbacks
  deriving DecidableEq, Repr

/-- Lines 6-8: sessionPromise and webconnector are module level let
bindings, shared by every provider instance in the process. The model
carries them in one global state record, together with bookkeeping: how
many negotiations (createWebconnector invocations) have been started, the
next fresh future identifier, and the bridge URL the current connector was
built with. A stored future is identified by a number. -/
structure GlobalState where
  sessionPromise : Option Nat
  webconnector : Option Connector
  negotiationsStarted : Nat
  nextFutureId : Nat
  bridgeUsed : Option String
  deriving DecidableEq, Repr

/-- Lines 271-276 together with line 139: the synchronous prefix of
sendAsync for a supported method. If no sessionPromise is stored,
createWebconnector is invoked: it overwrites webconnector with a fresh
connector built from the bridge URL of the dispatching instance, and the
promise it returns is stored into sessionPromise before sendAsync yields
control. Otherwise the stored promise is read. The check and the store run
with no await in between, hence as one atomic step of the event loop. The
returned number is the future this dispatch call observes. -/
def ensureSessionStep (cfg : Config) (st : GlobalState) : Nat × GlobalState :=
  match st.sessionPromise with
  | some f => (f, st)
  | none =>
      (st.nextFutureId,
       { sessionPromise := some st.nextFutureId
         webconnector := some (newConnector cfg.bridgeURL)
         negotiationsStarted := st.negotiationsStarted + 1
         nextFutureId := st.nextFutureId + 1
         bridgeUsed := some cfg.bridgeURL })

/-- N dispatch calls for supported methods whose synchronous prefixes run
one after the other (the JavaScript event loop is single threaded and the
prefix contains no suspension point), all before any settlement of the
negotiation. Returns the future observed by each call and the final
state. -/
def runDispatches : List Config → GlobalState → List Nat × GlobalState
  | [], st => ([], st)
  | c :: cs, st =>
      let fs := ensureSessionStep c st
      let rest := runDispatches cs fs.2
      (fs.1 :: rest.1, rest.2)

/-- The promise a dispatch call chains its continuation on: the fresh
already resolved promise built on line 270, or the stored session future. -/
inductive AwaitTarget where
  | trivialResolved
  | sessionFuture (id : Nat)
  deriving DecidableEq, Repr

/-- The branch of sendAsync a dispatch call takes. -/
inductive Route where
  | walletconnectPath
  | accountsPath
  | unreachablePath
  | plainRelayPath
  deriving DecidableEq, Repr

/-- Lines 269-315, control flow only: p starts as Promise.resolve([]); it
is replaced by the session future only inside the supported methods
branch; the plain relay branch chains on p as it stands, that is on the
trivial resolved promise, and touches neither sessionPromise nor
webconnector. -/
def sendAsyncRoute (cfg : Config) (st : GlobalState) (method : String) :
    AwaitTarget × Route × GlobalState :=
  if supportedMethods.contains method then
    let fs := ensureSessionStep cfg st
    if walletconnectMethods.contains method then
      (AwaitTarget.sessionFuture fs.1, Route.walletconnectPath, fs.2)
    else if method = "eth_accounts" then
      (AwaitTarget.sessionFuture fs.1, Route.accountsPath, fs.2)
    else
      (AwaitTarget.sessionFuture fs.1, Route.unreachablePath, fs.2)
  else
    (AwaitTarget.trivialResolved, Route.plainRelayPath, st)

/-- A hook invocation observed on the trace. -/
inductive HookCall where
  | onConnect
  | onCreate (uri : String)
  | onAbort (uri : String)
  | onUpdate
  | onDisconnect
  deriving DecidableEq, Repr

/-- Settlement status of the promise returned by createWebconnector (the
one stored in sessionPromise). -/
inductive FutureStatus where
  | pending
  | resolvedWith (accounts : List String)
  | rejectedWith (e : Err)
  deriving DecidableEq, Repr

/-- A promise settles at most once: resolving or rejecting an already
settled promise is a no-op. -/
def settle (s t : FutureStatus) : FutureStatus :=
  match s with
  | FutureStatus.pending => t
  | _ => s

/-- The state of an in-flight negotiation: the global references, the
status of the stored future, the hook invocations so far, and the errors
thrown past an event handler boundary. -/
structure NegState where
  global : GlobalState
  status : FutureStatus
  hooks : List HookCall
  escaped : List Err
  deriving DecidableEq, Repr

/-- The asynchronous events that drive a negotiation. qrAbort can only
fire when showQRCode is enabled, since only then is the modal opened with
the abort closure registered (lines 191-198). -/
inductive NegEvent where
  | createSessionOk (uri : String)
  | createSessionFail (e : Err)
  | connectEvent (error : Option Err) (accounts : List String)
  | disconnectEvent (error : Option Err)
  | qrAbort (uri : String)
  deriving DecidableEq, Repr

/-- The external transport marks the connector connected and stores the
approved session when the connect event fires without error. -/
def markConnected (g : GlobalState) (accounts : List String) : GlobalState :=
  match g.webconnector with
  | some wc =>
      let wc2 : Connector := { wc with connected := true, session := some ⟨accounts⟩ }
      { g with webconnector := some wc2 }
  | none => g

/-- Lines 137-233, one event at a time.
createSessionOk (lines 183-205): the onCreate hook fires (when supplied);
the future keeps waiting on the connect event.
createSessionFail (lines 207-210): the catch clears webconnector and
sessionPromise but neither resolves nor rejects the outer promise, so the
status is left exactly as it was.
connectEvent with an error (lines 146-149): the handler rejects d, which
the chain on lines 201-205 propagates to the outer promise.
connectEvent without error (lines 150-162): onConnect fires (when
supplied), the connector becomes connected, and the future resolves with
the account list of the event payload.
disconnectEvent with an error (lines 164-167): the handler throws the
error past the event boundary; no hook fires.
disconnectEvent without error (lines 169-177): onDisconnect fires (when
supplied).
qrAbort (lines 193-197): the abort closure clears webconnector and
sessionPromise and fires onAbort (when supplied); the future is neither
resolved nor rejected. -/
def negotiationStep (cfg : Config) (st : NegState) : NegEvent → NegState
  | NegEvent.createSessionOk uri =>
      { st with hooks := st.hooks ++
          (if cfg.callbacks.hasOnCreate then [HookCall.onCreate uri] else []) }
  | NegEvent.createSessionFail _ =>
      { st with global :=
          { st.global with webconnector := none, sessionPromise := none } }
  | NegEvent.connectEvent (some e) _ =>
      { st with status := settle st.status (FutureStatus.rejectedWith e) }
  | NegEvent.connectEvent none accounts =>
      { st with
          status := settle st.status (FutureStatus.resolvedWith accounts)
          hooks := st.hooks ++
            (if cfg.callbacks.hasOnConnect then [HookCall.onConnect] else [])
          global := markConnected st.global accounts }
  | NegEvent.disconnectEvent (some e) =>
      { st with escaped := st.escaped ++ [e] }
  | NegEvent.disconnectEvent none =>
      { st with hooks := st.hooks ++
          (if cfg.callbacks.hasOnDisconnect then [HookCall.onDisconnect] else []) }
  | NegEvent.qrAbort uri =>
      { st with
          global := { st.global with webconnector := none, sessionPromise := none }
          hooks := st.hooks ++
            (if cfg.callbacks.hasOnAbort then [HookCall.onAbort uri] else []) }

/-- Lines 323-329: isConnected reads only the module level webconnector;
it takes no per instance data at all. -/
def isConnected (st : GlobalState) : Bool :=
  match st.webconnector with
  | some wc => wc.connected
  | none => false

/-- Lines 331-335: disconnect requests killSession from the pairing
transport iff the module level connector exists and is connected; like
isConnected it reads only global state. The returned Bool records whether
killSession was requested. -/
def disconnect (st : GlobalState) : Bool :=
  match st.webconnector with
  | some wc => wc.connected
  | none => false

/-- The account list the current connector reports, i.e. the value of
webconnector.session.accounts behind the guard on line 298, when it is
reachable. -/
def sessionAccountsOf : Option Connector → Option (List String)
  | some wc =>
      match wc.session with
      | some s => some s.accounts
      | none => none
  | none => none

/-- A settled outcome of the session future observed by a continuation. -/
inductive SettledStatus where
  | resolvedAcc (accounts : List String)
  | rejectedErr (e : Err)
  deriving DecidableEq, Repr

/-- Lines 293-304, the eth_accounts branch: the resolution handler ignores
the resolved value, reads the webconnector as it stands at continuation
time, and invokes the callback with a null error and the session account
list, or the empty list when no connector or no session exists; a
rejection of the session future lands in the catch, whose handler is
getCallback itself, so the callback is invoked with the rejection error
and an undefined result. The first component is the error the callback
receives. -/
def accountsOutcome (wc : Option Connector) (payload : Payload) :
    SettledStatus → Option Err × JsonRpcResponse
  | SettledStatus.resolvedAcc _ =>
      getCallback payload none (RpcResult.accounts ((sessionAccountsOf wc).getD []))
  | SettledStatus.rejectedErr e => getCallback payload (some e) RpcResult.undef

/-- Lines 278-292, the signing branch: once the session future resolves,
the payload (already mutated for eth_sendTransaction) goes to the custom
request channel; the wrapped callback fn receives (null, result) on
success and (err, null) on failure. res is the outcome of the custom
request. -/
def signingOutcome (payload : Payload) (res : Except Err RpcResult) :
    Option Err × JsonRpcResponse :=
  match res with
  | Except.ok r => getCallback (sendAsyncPayloadAfter payload) none r
  | Except.error e => getCallback (sendAsyncPayloadAfter payload) (some e) RpcResult.nullv

/-- A request header value: the Authorization header derived from the
basic auth credentials (the base64 encoding is external and kept
symbolic), or a plain string. -/
inductive HeaderVal where
  | basicAuth (user pw : String)
  | plain (s : String)
  deriving DecidableEq, Repr

/-- The XMLHttpRequest attributes the core sets. A freshly constructed
request has timeout 0, the XHR default, which disables the timeout
machinery entirely. -/
structure XHR where
  reqMethod : String
  url : String
  isAsync : Bool
  reqHeaders : List (String × HeaderVal)
  timeout : Nat
  deriving DecidableEq, Repr

/-- Lines 93-98: the Authorization header is set only when both user and
password are truthy. -/
def authHeaders (cfg : Config) : List (String × HeaderVal) :=
  if truthyStr cfg.user && truthyStr cfg.password then
    [("Authorization", HeaderVal.basicAuth (cfg.user.getD "") (cfg.password.getD ""))]
  else []

/-- Lines 102-106: caller supplied headers, applied when the headers field
is set. -/
def extraHeaders (cfg : Config) : List (String × HeaderVal) :=
  match cfg.headers with
  | some hs => hs.map (fun h => (h.name, HeaderVal.plain h.value))
  | none => []

/-- Lines 90-109: prepareRequest opens a POST to the host, sets the auth,
content type and extra headers, and returns the request. It never assigns
the timeout attribute anywhere (nor does any other line of the module), so
the request keeps the XHR default of 0. -/
def prepareRequest (cfg : Config) (isAsync : Bool) : XHR :=
  { reqMethod := "POST"
    url := cfg.host
    isAsync := isAsync
    reqHeaders := authHeaders cfg ++
      [("Content-Type", HeaderVal.plain "application/json")] ++ extraHeaders cfg
    timeout := 0 }

/-- A callback invocation of the non blocking HTTP path. -/
inductive CallbackOutcome where
  | parsed (body : String)
  | timeoutErr (t : Nat)
  deriving DecidableEq, Repr

/-- Lines 235-260 together with the XHR event semantics: the callback of
_sendAsync fires from the readystatechange handler when the request
completes with a response, or from the ontimeout handler, which the XHR
environment triggers only when the timeout attribute of the request is
nonzero and that much time passes without a response. With a transport
that never responds and a send that does not throw, the callback fires iff
the timeout attribute is nonzero; the timeout error message carries the
configured timeout of the instance (line 252). -/
def sendAsyncInvocations (x : XHR) (cfg : Config) (transportResponds : Bool)
    (body : String) : List CallbackOutcome :=
  if transportResponds then [CallbackOutcome.parsed body]
  else if x.timeout != 0 then [CallbackOutcome.timeoutErr cfg.timeout]
  else []

/-- No lifecycle hooks supplied (the constructor default is the empty
object). -/
def noCallbacks : Callbacks :=
  { hasOnConnect := false, hasOnCreate := false, hasOnAbort := false,
    hasOnUpdate := false, hasOnDisconnect := false }

/-- Every lifecycle hook supplied. -/
def allCallbacks : Callbacks :=
  { hasOnConnect := true, hasOnCreate := true, hasOnAbort := true,
    hasOnUpdate := true, hasOnDisconnect := true }

/-- A configuration with the constructor defaults. -/
def cfgA : Config :=
  { host := "http://localhost:8545", timeout := 0, user := none, password := none,
    headers := none, bridgeURL := "https://bridge.walletconnect.org",
    showQRCode := true, callbacks := noCallbacks }

/-- The default configuration with every hook supplied. -/
def cfgAll : Config := { cfgA with callbacks := allCallbacks }

/-- A second instance configured with a different bridge. -/
def cfgB : Config := { cfgA with bridgeURL := "https://other.bridge.example" }

/-- The module level state at load time: no promise, no connector. -/
def st0 : GlobalState :=
  { sessionPromise := none, webconnector := none, negotiationsStarted := 0,
    nextFutureId := 0, bridgeUsed := none }

/-- A state in which one negotiation is in flight: future 0 stored,
connector created, nothing settled yet. -/
def stPending : GlobalState := (ensureSessionStep cfgA st0).2

/-- The in-flight negotiation view of stPending. -/
def negStarted : NegState :=
  { global := stPending, status := FutureStatus.pending, hooks := [], escaped := [] }

/-- A negotiation that connected with one account. -/
def negConnected : NegState :=
  { global := markConnected stPending ["0xabc"],
    status := FutureStatus.resolvedWith ["0xabc"],
    hooks := [], escaped := [] }

/-- The eth_accounts request of spec scenario 8. -/
def payloadAccounts : Payload :=
  { id := 2, jsonrpc := "2.0", method := "eth_accounts", params := [] }

/-- The eth_sendTransaction request of spec scenario 9, on chain 137. -/
def payloadTx : Payload :=
  { id := 3, jsonrpc := "2.0", method := "eth_sendTransaction",
    params := [TxParam.tx 137] }

/-- A configuration with a nonzero timeout, for the timeout claim. -/
def cfgTimeout : Config := { cfgA with timeout := 5000 }

/-! ## Helper lemmas -/

lemma ensureSessionStep_stored (cfg : Config) (st : GlobalState) (f : Nat)
    (h : st.sessionPromise = some f) : ensureSessionStep cfg st = (f, st) := by
  unfold ensureSessionStep
  rw [h]

lemma runDispatches_stored (cfgs : List Config) (st : GlobalState) (f : Nat)
    (h : st.sessionPromise = some f) :
    runDispatches cfgs st = (List.replicate cfgs.length f, st) := by
  induction cfgs with
  | nil => simp [runDispatches]
  | cons c cs ih =>
      simp [runDispatches, ensureSessionStep_stored c st f h, ih, List.replicate]

lemma sendAsyncPayloadAfter_id (payload : Payload) :
    (sendAsyncPayloadAfter payload).id = payload.id := by
  unfold sendAsyncPayloadAfter
  split <;> rfl

lemma sendAsyncPayloadAfter_jsonrpc (payload : Payload) :
    (sendAsyncPayloadAfter payload).jsonrpc = payload.jsonrpc := by
  unfold sendAsyncPayloadAfter
  split <;> rfl

/-! ## Claim theorems -/

/-- Claim C1: for every set of N concurrent sendAsync calls whose method
requires a session, issued before negotiation settles, exactly one
negotiation is started: the first call stores its negotiation future in
the single sessionPromise slot, and every later call observes that same
stored future rather than starting a second negotiation. -/
theorem c1_idempotent_negotiation (cfgs : List Config) (st : GlobalState)
    (h : st.sessionPromise = none) (hne : cfgs ≠ []) :
    (runDispatches cfgs st).2.negotiationsStarted = st.negotiationsStarted + 1 ∧
    (runDispatches cfgs st).2.sessionPromise = some st.nextFutureId ∧
    (runDispatches cfgs st).1 = List.replicate cfgs.length st.nextFutureId := by
  cases cfgs with
  | nil => exact absurd rfl hne
  | cons c cs =>
      have h1 : ensureSessionStep c st =
          (st.nextFutureId,
           { sessionPromise := some st.nextFutureId
             webconnector := some (newConnector c.bridgeURL)
             negotiationsStarted := st.negotiationsStarted + 1
             nextFutureId := st.nextFutureId + 1
             bridgeUsed := some c.bridgeURL }) := by
        unfold ensureSessionStep
        rw [h]
      have h2 := runDispatches_stored cs
        { sessionPromise := some st.nextFutureId
          webconnector := some (newConnector c.bridgeURL)
          negotiationsStarted := st.negotiationsStarted + 1
          nextFutureId := st.nextFutureId + 1
          bridgeUsed := some c.bridgeURL } st.nextFutureId rfl
      simp [runDispatches, h1, h2, List.replicate]

theorem c1_witness :
    (st0.sessionPromise = none ∧ ([cfgA, cfgB, cfgA] : List Config) ≠ []) ∧
    ((runDispatches [cfgA, cfgB, cfgA] st0).2.negotiationsStarted =
        st0.negotiationsStarted + 1 ∧
      (runDispatches [cfgA, cfgB, cfgA] st0).2.sessionPromise = some st0.nextFutureId ∧
      (runDispatches [cfgA, cfgB, cfgA] st0).1 =
        List.replicate ([cfgA, cfgB, cfgA] : List Config).length st0.nextFutureId) :=
  ⟨⟨rfl, List.cons_ne_nil _ _⟩,
   c1_idempotent_negotiation [cfgA, cfgB, cfgA] st0 rfl (List.cons_ne_nil _ _)⟩

/-- Claim C2 counterexample: with a pending SessionFuture stored (future 0
is in flight in stPending), a plain relay dispatch such as eth_blockNumber
chains on the fresh already resolved promise of line 270, not on the
stored SessionFuture: it does not wait on the in-flight negotiation before
delegating to the non blocking HTTP path. -/
theorem c2_counterexample :
    supportedMethods.contains "eth_blockNumber" = false ∧
    stPending.sessionPromise = some 0 ∧
    (sendAsyncRoute cfgA stPending "eth_blockNumber").1 = AwaitTarget.trivialResolved ∧
    (sendAsyncRoute cfgA stPending "eth_blockNumber").1 ≠ AwaitTarget.sessionFuture 0 := by
  decide

/-- Claim C2 amended: a plain relay dispatch never waits on the
SessionFuture, whether or not one exists: it chains on a fresh already
resolved promise, delegates to the non blocking HTTP path, leaves the
global session state untouched, and never triggers negotiation. -/
theorem c2_plain_relay_no_wait (cfg : Config) (st : GlobalState) (m : String)
    (h : supportedMethods.contains m = false) :
    sendAsyncRoute cfg st m = (AwaitTarget.trivialResolved, Route.plainRelayPath, st) := by
  unfold sendAsyncRoute
  rw [h]
  simp

theorem c2_witness :
    supportedMethods.contains "eth_blockNumber" = false ∧
    sendAsyncRoute cfgA stPending "eth_blockNumber" =
      (AwaitTarget.trivialResolved, Route.plainRelayPath, stPending) :=
  ⟨by decide, c2_plain_relay_no_wait cfgA stPending "eth_blockNumber" (by decide)⟩

/-- Claim C3 counterexample: an eth_accounts dispatch issued when no
session exists stores a fresh negotiation future; if that negotiation
rejects (for instance the connect event arrives with an error, lines
146-149), the rejection lands in the catch on line 303 and the callback IS
invoked with the error, contradicting: never with an error. -/
theorem c3_counterexample :
    accountsOutcome none payloadAccounts (SettledStatus.rejectedErr "connect failed") =
      (some "connect failed",
       { id := 2, jsonrpc := "2.0", result := RpcResult.undef }) := by
  decide

/-- Claim C3 amended: when the session future resolves, the eth_accounts
callback never receives an error: it gets a null error together with the
account list the session reports at that moment, and in particular the
empty list whenever no session exists; only when the session future
rejects is the callback invoked with that rejection error. -/
theorem c3_accounts_resolution_no_error (wc : Option Connector) (payload : Payload)
    (l : List String) (h : sessionAccountsOf wc = none) :
    accountsOutcome wc payload (SettledStatus.resolvedAcc l) =
      (none, { id := payload.id, jsonrpc := payload.jsonrpc,
               result := RpcResult.accounts [] }) := by
  simp [accountsOutcome, getCallback, h]

theorem c3_witness :
    sessionAccountsOf none = none ∧
    accountsOutcome none payloadAccounts (SettledStatus.resolvedAcc []) =
      (none, { id := payloadAccounts.id, jsonrpc := payloadAccounts.jsonrpc,
               result := RpcResult.accounts [] }) :=
  ⟨rfl, c3_accounts_resolution_no_error none payloadAccounts [] rfl⟩

/-- Claim C4 counterexample: in a freshly started negotiation, a
createSession failure clears both the connector and the stored promise
slot (lines 208-209), but the catch on line 207 neither resolves nor
rejects the outer promise: the future every awaiting caller holds stays
pending, it is not rejected with the failure, so the callers are left
pending and the failure is silently swallowed. -/
theorem c4_counterexample :
    (negotiationStep cfgA negStarted (NegEvent.createSessionFail "relay down")).global.sessionPromise = none ∧
    (negotiationStep cfgA negStarted (NegEvent.createSessionFail "relay down")).global.webconnector = none ∧
    (negotiationStep cfgA negStarted (NegEvent.createSessionFail "relay down")).status = FutureStatus.pending ∧
    (negotiationStep cfgA negStarted (NegEvent.createSessionFail "relay down")).status ≠
      FutureStatus.rejectedWith "relay down" := by
  decide

/-- Claim C4 amended: if createSession fails, both the Session reference
and the SessionFuture slot are cleared, so the next ensureSession call
retries cleanly; but the failure is NOT surfaced to the callers awaiting
the negotiation future: their future is left pending forever (only connect
event errors are surfaced by rejection). -/
theorem c4_create_session_failure_swallowed (cfg : Config) (st : NegState) (e : Err)
    (h : st.status = FutureStatus.pending) :
    (negotiationStep cfg st (NegEvent.createSessionFail e)).global.sessionPromise = none ∧
    (negotiationStep cfg st (NegEvent.createSessionFail e)).global.webconnector = none ∧
    (negotiationStep cfg st (NegEvent.createSessionFail e)).status = FutureStatus.pending := by
  simp [negotiationStep, h]

theorem c4_witness :
    negStarted.status = FutureStatus.pending ∧
    ((negotiationStep cfgA negStarted (NegEvent.createSessionFail "relay down")).global.sessionPromise = none ∧
     (negotiationStep cfgA negStarted (NegEvent.createSessionFail "relay down")).global.webconnector = none ∧
     (negotiationStep cfgA negStarted (NegEvent.createSessionFail "relay down")).status = FutureStatus.pending) :=
  ⟨rfl, c4_create_session_failure_swallowed cfgA negStarted "relay down" rfl⟩

/-- Claim C5 counterexample: dispatching the eth_sendTransaction request
of scenario 9 pushes the hex encoded chain id onto the params array of the
very payload object the caller holds (line 281); after the call the
callers object differs from what it passed in, so the mutation is visible
to the caller, not scoped to a forwarded copy. -/
theorem c5_counterexample :
    sendAsyncPayloadAfter payloadTx ≠ payloadTx ∧
    (sendAsyncPayloadAfter payloadTx).params =
      [TxParam.tx 137, TxParam.hexStr "0x89"] := by
  decide

/-- Claim C5 amended: for eth_sendTransaction the hex encoded chain id is
appended in place to the params of the callers own request object, and the
forwarded payload is that same object, so the mutation IS visible on the
callers request; payloads of every other method are left untouched. -/
theorem c5_mutation_visible (payload : Payload) :
    (payload.method = "eth_sendTransaction" →
      (sendAsyncPayloadAfter payload).params =
        payload.params ++
          [TxParam.hexStr (convertNumberToHex (chainIdOfFirst payload.params))]) ∧
    (payload.method ≠ "eth_sendTransaction" → sendAsyncPayloadAfter payload = payload) := by
  constructor <;> intro h <;> simp [sendAsyncPayloadAfter, h]

theorem c5_witness :
    ((sendAsyncPayloadAfter payloadTx).params =
      payloadTx.params ++
        [TxParam.hexStr (convertNumberToHex (chainIdOfFirst payloadTx.params))]) ∧
    sendAsyncPayloadAfter payloadAccounts = payloadAccounts :=
  ⟨(c5_mutation_visible payloadTx).1 rfl,
   (c5_mutation_visible payloadAccounts).2 (by decide)⟩

/-- Claim C6: on both session paths (signing and accounts), on success and
on error alike, the response object delivered to the callback echoes the
id and jsonrpc fields of the originating request unchanged; the in-place
params mutation of eth_sendTransaction does not touch them. -/
theorem c6_response_echo (payload : Payload) (res : Except Err RpcResult)
    (wc : Option Connector) (s : SettledStatus) :
    (signingOutcome payload res).2.id = payload.id ∧
    (signingOutcome payload res).2.jsonrpc = payload.jsonrpc ∧
    (accountsOutcome wc payload s).2.id = payload.id ∧
    (accountsOutcome wc payload s).2.jsonrpc = payload.jsonrpc := by
  cases res <;> cases s <;>
    simp [signingOutcome, accountsOutcome, getCallback,
          sendAsyncPayloadAfter_id, sendAsyncPayloadAfter_jsonrpc]

/-- Claim C7 counterexample: in a connected session with every lifecycle
hook supplied, a disconnect event carrying an error makes the handler on
lines 164-167 throw the error past the event boundary, and the
onDisconnect hook is NOT invoked: the error is not reported through the
hooks. -/
theorem c7_counterexample :
    isConnected negConnected.global = true ∧
    cfgAll.callbacks.hasOnDisconnect = true ∧
    (negotiationStep cfgAll negConnected (NegEvent.disconnectEvent (some "peer gone"))).escaped = ["peer gone"] ∧
    (negotiationStep cfgAll negConnected (NegEvent.disconnectEvent (some "peer gone"))).hooks = negConnected.hooks ∧
    HookCall.onDisconnect ∉
      (negotiationStep cfgAll negConnected (NegEvent.disconnectEvent (some "peer gone"))).hooks := by
  decide

/-- Claim C7 amended: a disconnect event carrying an error is thrown past
the event handler boundary and invokes no hook; only an error free
disconnect event reports through the onDisconnect hook. -/
theorem c7_disconnect_error_thrown (cfg : Config) (st : NegState) (e : Err)
    (h : cfg.callbacks.hasOnDisconnect = true) :
    (negotiationStep cfg st (NegEvent.disconnectEvent (some e))).escaped = st.escaped ++ [e] ∧
    (negotiationStep cfg st (NegEvent.disconnectEvent (some e))).hooks = st.hooks ∧
    (negotiationStep cfg st (NegEvent.disconnectEvent none)).hooks =
      st.hooks ++ [HookCall.onDisconnect] := by
  simp [negotiationStep, h]

theorem c7_witness :
    cfgAll.callbacks.hasOnDisconnect = true ∧
    ((negotiationStep cfgAll negConnected (NegEvent.disconnectEvent (some "peer gone"))).escaped =
        negConnected.escaped ++ ["peer gone"] ∧
     (negotiationStep cfgAll negConnected (NegEvent.disconnectEvent (some "peer gone"))).hooks =
        negConnected.hooks ∧
     (negotiationStep cfgAll negConnected (NegEvent.disconnectEvent none)).hooks =
        negConnected.hooks ++ [HookCall.onDisconnect]) :=
  ⟨rfl, c7_disconnect_error_thrown cfgAll negConnected "peer gone" rfl⟩

/-- Claim C8: when the QR modal abort callback fires, both the Session
reference and the SessionFuture slot are cleared and onAbort (when
supplied) is invoked; a subsequent dispatch needing a session therefore
starts a brand-new negotiation with a fresh future instead of reusing the
stale one. -/
theorem c8_abort_resets (cfg cfg2 : Config) (st : NegState) (uri : String) (fid : Nat)
    (hq : cfg.callbacks.hasOnAbort = true)
    (_hslot : st.global.sessionPromise = some fid)
    (hfresh : fid < st.global.nextFutureId) :
    (negotiationStep cfg st (NegEvent.qrAbort uri)).global.sessionPromise = none ∧
    (negotiationStep cfg st (NegEvent.qrAbort uri)).global.webconnector = none ∧
    HookCall.onAbort uri ∈ (negotiationStep cfg st (NegEvent.qrAbort uri)).hooks ∧
    (ensureSessionStep cfg2 (negotiationStep cfg st (NegEvent.qrAbort uri)).global).2.negotiationsStarted =
      st.global.negotiationsStarted + 1 ∧
    (ensureSessionStep cfg2 (negotiationStep cfg st (NegEvent.qrAbort uri)).global).1 ≠ fid := by
  refine ⟨?_, ?_, ?_, ?_, ?_⟩ <;>
    simp [negotiationStep, ensureSessionStep, hq]
  omega

theorem c8_witness :
    (cfgAll.callbacks.hasOnAbort = true ∧
     negStarted.global.sessionPromise = some 0 ∧
     0 < negStarted.global.nextFutureId) ∧
    ((negotiationStep cfgAll negStarted (NegEvent.qrAbort "wc:uri")).global.sessionPromise = none ∧
     (negotiationStep cfgAll negStarted (NegEvent.qrAbort "wc:uri")).global.webconnector = none ∧
     HookCall.onAbort "wc:uri" ∈ (negotiationStep cfgAll negStarted (NegEvent.qrAbort "wc:uri")).hooks ∧
     (ensureSessionStep cfgB (negotiationStep cfgAll negStarted (NegEvent.qrAbort "wc:uri")).global).2.negotiationsStarted =
       negStarted.global.negotiationsStarted + 1 ∧
     (ensureSessionStep cfgB (negotiationStep cfgAll negStarted (NegEvent.qrAbort "wc:uri")).global).1 ≠ 0) :=
  ⟨⟨rfl, rfl, by decide⟩,
   c8_abort_resets cfgAll cfgB negStarted "wc:uri" 0 rfl rfl (by decide)⟩

/-- Claim C9: prepareRequest never writes the timeout attribute of the
request it builds, for any configuration, so the request keeps the XHR
default of 0, which disables the timeout machinery; hence with a transport
that never responds the non blocking path never invokes its callback at
all: the configured timeout is NOT applied to the outgoing request and the
ontimeout branch of _sendAsync is dead code. In particular with the
configured timeout 5000 the claimed TimeoutError can never be delivered. -/
theorem c9_timeout_never_applied (cfg : Config) (b : Bool) (body : String) :
    (prepareRequest cfg b).timeout = 0 ∧
    sendAsyncInvocations (prepareRequest cfg b) cfg false body = [] ∧
    (prepareRequest cfgTimeout true).timeout = 0 ∧
    cfgTimeout.timeout = 5000 :=
  ⟨rfl, rfl, rfl, rfl⟩

/-- Claim C10: the Session reference and the SessionFuture are module
level globals shared by every provider instance: after instance A (config
cA) establishes a session, isConnected reports true and disconnect would
request killSession, both reading only the global state (their definitions
take no per instance data); a session requiring dispatch on any other
instance B observes the very future A stored, leaves the global state
untouched (so no second negotiation starts), and the bridge recorded for
the live connector stays the one of A, not of B. -/
theorem c10_global_session_shared (cA cB : Config) (st : GlobalState)
    (accounts : List String) (h : st.sessionPromise = none) :
    isConnected (markConnected (ensureSessionStep cA st).2 accounts) = true ∧
    disconnect (markConnected (ensureSessionStep cA st).2 accounts) = true ∧
    ensureSessionStep cB (markConnected (ensureSessionStep cA st).2 accounts) =
      ((ensureSessionStep cA st).1, markConnected (ensureSessionStep cA st).2 accounts) ∧
    (markConnected (ensureSessionStep cA st).2 accounts).bridgeUsed = some cA.bridgeURL ∧
    (markConnected (ensureSessionStep cA st).2 accounts).negotiationsStarted =
      st.negotiationsStarted + 1 := by
  have h1 : ensureSessionStep cA st =
      (st.nextFutureId,
       { sessionPromise := some st.nextFutureId
         webconnector := some (newConnector cA.bridgeURL)
         negotiationsStarted := st.negotiationsStarted + 1
         nextFutureId := st.nextFutureId + 1
         bridgeUsed := some cA.bridgeURL }) := by
    unfold ensureSessionStep
    rw [h]
  rw [h1]
  refine ⟨?_, ?_, ?_, ?_, ?_⟩ <;>
    simp [markConnected, newConnector, isConnected, disconnect, ensureSessionStep]

theorem c10_witness :
    st0.sessionPromise = none ∧
    (isConnected (markConnected (ensureSessionStep cfgA st0).2 ["0xabc"]) = true ∧
     disconnect (markConnected (ensureSessionStep cfgA st0).2 ["0xabc"]) = true ∧
     ensureSessionStep cfgB (markConnected (ensureSessionStep cfgA st0).2 ["0xabc"]) =
       ((ensureSessionStep cfgA st0).1, markConnected (ensureSessionStep cfgA st0).2 ["0xabc"]) ∧
     (markConnected (ensureSessionStep cfgA st0).2 ["0xabc"]).bridgeUsed = some cfgA.bridgeURL ∧
     (markConnected (ensureSessionStep cfgA st0).2 ["0xabc"]).negotiationsStarted =
       st0.negotiationsStarted + 1) :=
  ⟨rfl, c10_global_session_shared cfgA cfgB st0 ["0xabc"] rfl⟩

end WCP
